import Mathlib

/-!
Shallow embedding of `src/streamlit_app.py` (NFHS Football Rules Assistant).

The script builds a request to a hosted completion API, calls it once per
lookup, optionally prints token-usage diagnostics when a debug flag is set,
extracts the first available text field from the response, memoizes lookups
by their exact input string, and renders the result.  External effects — the
network call, the agent call of the general Q&A path, and every `st.*`
display command — are made explicit: oracles are passed as function
arguments and displayed output is collected in a list.
-/

namespace NFHS

/-! ### Python string helpers

Python `str.strip()` removes leading and trailing whitespace
(space, tab, newline, carriage return, vertical tab, form feed);
`str.lower()` lowercases.  Both are modelled on the character list
underlying a `String`. -/

/-- The whitespace characters removed by Python `str.strip()`. -/
def pyWs (c : Char) : Bool :=
  c = ' ' || c = '\t' || c = '\n' || c = '\r' || c = '\x0b' || c = '\x0c'

/-- Strip leading and trailing `pyWs` characters from a character list. -/
def stripL (l : List Char) : List Char :=
  ((l.dropWhile pyWs).reverse.dropWhile pyWs).reverse

/-- Python `s.strip()`. -/
def pyStrip (s : String) : String :=
  ⟨stripL s.data⟩

/-- Python `s.lower()` (ASCII-style, per character). -/
def pyLower (s : String) : String :=
  ⟨s.data.map Char.toLower⟩

/-! ### Configuration (lines 11, 25-29)

`CONFIG` is a dict of string constants.  `CONFIG.get(k)` can in general
yield a missing key, a string, or a non-string value; `ConfigVal` covers
the cases the guard at line 115 distinguishes. -/

/-- `RULE_VERSION = "65"` (line 11). -/
def RULE_VERSION : String := "65"

/-- A value `CONFIG.get(key)` may produce: `missing` is Python `None`
(absent key), `str` a string value, `other` a non-string value carrying
only its Python truthiness (the guard at line 115 never inspects more). -/
inductive ConfigVal
  | missing
  | str (s : String)
  | other (truthy : Bool)
deriving DecidableEq

/-- Python truthiness of a `ConfigVal` (`None` is falsy, a string is
truthy iff nonempty). -/
def ConfigVal.pyTruthy : ConfigVal → Bool
  | .missing => false
  | .str s => s != ""
  | .other b => b

/-- `isinstance(v, str)`. -/
def ConfigVal.isStr : ConfigVal → Bool
  | .str _ => true
  | _ => false

/-- Truthiness of `v.strip()` for a string value (only evaluated after the
`isinstance` guard, so non-strings map to `false` vacuously). -/
def ConfigVal.stripTruthy : ConfigVal → Bool
  | .str s => pyStrip s != ""
  | _ => false

/-- The string payload of a string-valued `ConfigVal`. -/
def ConfigVal.asStr : ConfigVal → Option String
  | .str s => some s
  | _ => none

/-- The `CONFIG` dict (lines 25-29).  `RULE_PROMPT_ID` is read with
`CONFIG[...]` (always present); the two vector-store ids are read with
`CONFIG.get(...)` and so are modelled as `ConfigVal`. -/
structure Config where
  RULE_PROMPT_ID : String
  RULE_VECTOR_STORE_ID : ConfigVal
  CASEBOOK_VECTOR_STORE_ID : ConfigVal
deriving DecidableEq

/-- The concrete configuration hard-coded in the script. -/
def CONFIG : Config :=
  { RULE_PROMPT_ID := "pmpt_688eb6bb5d2c8195ae17efd5323009e0010626afbd178ad9"
  , RULE_VECTOR_STORE_ID := .str "vs_689558cb487c819196565f82ed51220f"
  , CASEBOOK_VECTOR_STORE_ID := .str "vs_689f72f117c8819195716f04bc2ae546" }

/-! ### Debug-mode flag (lines 31-35) -/

/-- A query-parameter value: a plain string, or (older Streamlit) a list
of strings. -/
inductive QPVal
  | str (s : String)
  | list (l : List String)
deriving DecidableEq

/-- Lines 32-34: `st.query_params.get("query", "")`, then take the first
element (or `""`) when the value is a list.  After this normalization the
value is always a string, so the `isinstance(_qp_val, str)` at line 35
holds. -/
def qpNormalized (qp : Option QPVal) : String :=
  match qp.getD (.str "") with
  | .str s => s
  | .list [] => ""
  | .list (x :: _) => x

/-- Line 35: `debug_mode = isinstance(_qp_val, str) and _qp_val.lower() ==
"debug"`.  The flag is a function of the `"query"` query parameter alone. -/
def debug_mode (qp : Option QPVal) : Bool :=
  pyLower (qpNormalized qp) == "debug"

/-! ### Response and request shapes -/

/-- A block of `out.content`; `text` is present iff `hasattr(block, "text")`. -/
structure ContentBlock where
  text : Option String
deriving DecidableEq

/-- An item of `res.output`.  `textValue` is `out.text.value` when
`hasattr(out, "text") and hasattr(out.text, "value")`, else `none`;
`content` is `out.content` when `hasattr(out, "content")`, else `none`. -/
structure OutputItem where
  textValue : Option String
  content : Option (List ContentBlock)
deriving DecidableEq

/-- `usage.input_tokens_details`; the two inner counters are read with
`getattr(details, _, 0)`, so they may be absent. -/
structure UsageDetails where
  cached_input_tokens : Option Nat
  cache_creation_input_tokens : Option Nat
deriving DecidableEq

/-- `res.usage` token counters. -/
structure Usage where
  input_tokens : Nat
  output_tokens : Nat
  input_tokens_details : Option UsageDetails
deriving DecidableEq

/-- A completion-API response: output items plus optional usage counters
(`usage` is present iff `hasattr(res, "usage")`). -/
structure Response where
  output : List OutputItem
  usage : Option Usage
deriving DecidableEq

/-- One input message of the request payload. -/
structure Message where
  role : String
  content : String
deriving DecidableEq

/-- The file-search tool configuration of the request payload. -/
structure FileSearchTool where
  type : String
  vector_store_ids : List String
deriving DecidableEq

/-- The request payload of `client.responses.create` (lines 117-124). -/
structure Request where
  prompt_id : String
  prompt_version : String
  input : List Message
  tools : List FileSearchTool
  max_output_tokens : Nat
  store : Bool
deriving DecidableEq

/-! ### Vector-id filtering and request building (lines 114-124) -/

/-- The predicate of the list comprehension at line 115:
`v and isinstance(v, str) and v.strip()`. -/
def keepVector (v : ConfigVal) : Option String :=
  if v.pyTruthy && v.isStr && v.stripTruthy then v.asStr else none

/-- Line 115: filter the configured vector-store values down to the string
values that survive the guard. -/
def filterVectorIds (l : List ConfigVal) : List String :=
  l.filterMap keepVector

/-- Lines 114-124: the request `ask_rule_lookup` sends for `rule_id`. -/
def buildRequest (cfg : Config) (rule_id : String) : Request :=
  { prompt_id := cfg.RULE_PROMPT_ID
  , prompt_version := RULE_VERSION
  , input := [{ role := "user", content := "id:" ++ rule_id }]
  , tools := [{ type := "file_search"
              , vector_store_ids :=
                  filterVectorIds [cfg.RULE_VECTOR_STORE_ID, cfg.CASEBOOK_VECTOR_STORE_ID] }]
  , max_output_tokens := 2048
  , store := true }

/-! ### Displayed output

Every `st.*` display command is recorded as a `Disp`.  The cost line
(line 149) prints a float with 6 decimals; the model records the exact
cost in units of 10⁻⁷ dollars (`4e-7`, `1e-7` and `1.6e-6` dollars per
token become the integer factors 4, 1 and 16). -/

/-- One displayed element: `st.write`, `st.error`, `st.warning`,
`st.markdown`, the content handed to `render_output_with_watermark`, or
the estimated-cost line. -/
inductive Disp
  | write (s : String)
  | error (s : String)
  | warning (s : String)
  | markdown (s : String)
  | output (s : String)
  | costLine (tenthMicroDollars : Int)
deriving DecidableEq

/-- Lines 127-149: the diagnostic writes emitted when `debug_mode` is set
and the response has a `usage` attribute. -/
def debugWrites (u : Usage) : List Disp :=
  let cached : Nat :=
    match u.input_tokens_details with
    | some d => d.cached_input_tokens.getD 0
    | none => 0
  [ .write "🔍 Token usage:"
  , .write ("Input tokens: " ++ toString u.input_tokens)
  , .write ("Output tokens: " ++ toString u.output_tokens) ]
  ++ (match u.input_tokens_details with
      | some d =>
        [ .write ("  Cached input tokens: " ++ toString (d.cached_input_tokens.getD 0))
        , .write ("  Cache creation input tokens: " ++ toString (d.cache_creation_input_tokens.getD 0)) ]
      | none => [])
  ++ [ .costLine (4 * ((u.input_tokens : Int) - (cached : Int)) + (cached : Int) + 16 * (u.output_tokens : Int)) ]

/-! ### Text extraction (lines 151-160) -/

/-- Inner loop of lines 155-158: the first block of `out.content` that has
a `text` attribute yields `block.text.strip()`. -/
def findBlockText : List ContentBlock → Option String
  | [] => none
  | b :: rest =>
    match b.text with
    | some t => some (pyStrip t)
    | none => findBlockText rest

/-- Outer loop of lines 152-158: per output item, return
`out.text.value.strip()` when the direct text-value field is present, else
the first content block with a text field; when an item yields nothing the
loop moves to the next item. -/
def extractOutput : List OutputItem → Option String
  | [] => none
  | o :: rest =>
    match o.textValue with
    | some t => some (pyStrip t)
    | none =>
      match o.content with
      | some blocks =>
        match findBlockText blocks with
        | some s => some s
        | none => extractOutput rest
      | none => extractOutput rest

/-- Line 160: the fallback message returned when no output item carries a
text field. -/
def noResponseMsg (rule_id : String) : String :=
  "⚠️ No written response was generated for rule `" ++ rule_id ++ "`."

/-- The whole text-extraction step of `ask_rule_lookup` (lines 151-160). -/
def extractStep (rule_id : String) (output : List OutputItem) : String :=
  (extractOutput output).getD (noResponseMsg rule_id)

/-- Spec-side reading of "the first available text field" of one output
item: the direct text-value field if present, otherwise the text field of
the first content block that carries one, each stripped. -/
def firstAvailableText (o : OutputItem) : Option String :=
  match o.textValue with
  | some t => some (pyStrip t)
  | none => ((o.content.getD []).findSome? ContentBlock.text).map pyStrip

/-- Spec-side reading of the debug flag: true exactly when the `"query"`
parameter — taking the first element if the value is a list — matches
`"debug"` case-insensitively, and for no other input. -/
def debugSpecFlag (qp : Option QPVal) : Bool :=
  match qp with
  | none => false
  | some (.str s) => pyLower s == pyLower "debug"
  | some (.list l) =>
    match l.head? with
    | some s => pyLower s == pyLower "debug"
    | none => false

/-! ### `ask_rule_lookup` (lines 112-164)

The network call is an oracle `net : Request → Except String Response`;
`.error e` models `client.responses.create` raising an exception whose
message is `e`.  The result records the returned value, every request
actually sent, and everything displayed. -/

/-- Result of one `ask_rule_lookup` run. -/
structure AskResult where
  ret : Option String
  calls : List Request
  disp : List Disp
deriving DecidableEq

/-- Lines 112-164.  One request is sent; an exception from the network
call is caught, displayed via `st.error` and turned into `None`; otherwise
the debug block optionally writes diagnostics and the extraction step
produces the returned string. -/
def ask_rule_lookup (cfg : Config) (dbg : Bool) (rule_id : String)
    (net : Request → Except String Response) : AskResult :=
  let req := buildRequest cfg rule_id
  match net req with
  | .error e =>
    { ret := none, calls := [req], disp := [.error ("❌ Rule lookup failed: " ++ e)] }
  | .ok res =>
    let dw : List Disp :=
      if dbg then
        match res.usage with
        | some u => debugWrites u
        | none => []
      else []
    { ret := some (extractStep rule_id res.output), calls := [req], disp := dw }

/-! ### `cached_rule_lookup` (lines 166-169)

`st.cache_data` memoizes by exact input: on a hit the body does not run
(no network call); on a miss the body runs and the pair is stored. -/

/-- Result of one `cached_rule_lookup` run. -/
structure CacheResult where
  ret : Option String
  cache : List (String × Option String)
  calls : List Request
  disp : List Disp
deriving DecidableEq

/-- Lines 166-169: look the key up; on a hit return the stored value
without running the body, on a miss run `ask_rule_lookup` and store its
return value under the key. -/
def cached_rule_lookup (cfg : Config) (dbg : Bool)
    (cache : List (String × Option String)) (key : String)
    (net : Request → Except String Response) : CacheResult :=
  match cache.lookup key with
  | some v => { ret := v, cache := cache, calls := [], disp := [] }
  | none =>
    let r := ask_rule_lookup cfg dbg key net
    { ret := r.ret, cache := (key, r.ret) :: cache, calls := r.calls, disp := r.disp }

/-- A sequence of memoized lookups, threading the cache. -/
def runLookups (cfg : Config) (dbg : Bool)
    (net : Request → Except String Response) :
    List String → List (String × Option String) → List (String × Option String)
  | [], c => c
  | k :: ks, c => runLookups cfg dbg net ks (cached_rule_lookup cfg dbg c k net).cache

/-! ### Session state and the UI sections -/

/-- A session-state slot: absent key, Python `None`, or a string. -/
inductive SVal
  | missing
  | pynone
  | str (s : String)
deriving DecidableEq

/-- Python truthiness of a slot (a missing key reads as `None` via
`.get`). -/
def SVal.truthy : SVal → Bool
  | .str s => s != ""
  | _ => false

/-- The string a text widget bound to this slot shows (missing and `None`
render as the empty default). -/
def SVal.asStr : SVal → String
  | .str s => s
  | _ => ""

/-- Python `x or default` for a slot, as used at lines 203 and 228. -/
def SVal.orDefault (v : SVal) (d : String) : String :=
  if v.truthy then v.asStr else d

/-- `st.session_state.setdefault(key, "")` (lines 207-208). -/
def SVal.setdefault : SVal → SVal
  | .missing => .str ""
  | v => v

/-- The session-state keys the script touches. -/
structure SessionState where
  rule_input : SVal
  rule_result : SVal
  qa_thread_id : SVal
  qa_last_prompt : SVal
  qa_last_reply : SVal
  qa_prompt : SVal
deriving DecidableEq

/-- Result of rendering the rule section once. -/
structure RenderResult where
  state : SessionState
  cache : List (String × Option String)
  calls : List Request
  disp : List Disp
deriving DecidableEq

/-- Lines 187-203: `render_rule_section`.  `pressed` is the Look Up button;
a blank (whitespace-only) input produces only a warning, otherwise the
memoized lookup runs on the stripped input and the result is stored in
`rule_result`; the result block renders only when the stored result is
truthy. -/
def render_rule_section (cfg : Config) (dbg : Bool) (st0 : SessionState)
    (pressed : Bool) (cache : List (String × Option String))
    (net : Request → Except String Response) : RenderResult :=
  -- lines 188-190: a truthy rule_input clears the QA keys
  let st1 :=
    if st0.rule_input.truthy then
      { st0 with qa_thread_id := .str "", qa_last_prompt := .str "", qa_last_reply := .str "" }
    else st0
  let d0 : List Disp :=
    [.markdown "### 🔍 Search by Rule ID (e.g., 8-5-3d) or type a question/scenario"]
  -- line 193: the text widget materializes the slot as a string
  let rule_input := st1.rule_input.asStr
  let st2 := { st1 with rule_input := .str rule_input }
  -- lines 194-199
  let step :
      SessionState × List (String × Option String) × List Request × List Disp :=
    if pressed then
      if pyStrip rule_input != "" then
        let r := cached_rule_lookup cfg dbg cache (pyStrip rule_input) net
        ({ st2 with rule_result := match r.ret with | some s => .str s | none => .pynone },
         r.cache, r.calls, r.disp)
      else
        (st2, cache, [],
         [.warning "Please enter a rule ID to look up or enter a question or scenario."])
    else (st2, cache, [], [])
  let st3 := step.1
  -- lines 201-203: the result block renders only behind the truthiness guard
  let d2 : List Disp :=
    if st3.rule_result.truthy then
      [.markdown "### 📘 Rule Lookup Result", .output (st3.rule_result.orDefault "⚠️ No response.")]
    else []
  { state := st3, cache := step.2.1, calls := step.2.2.1, disp := d0 ++ step.2.2.2 ++ d2 }

/-! ### The general Q&A path (lines 172-184, 206-228)

`_qa_agent_call` wraps a single agent run; it is an oracle
`agent : String → String → Except String String` taking the prompt and the
trace group id. -/

/-- Lines 178-184: `ask_general`.  An exception from the agent call is
caught, displayed via `st.error`, and turned into `None`. -/
def ask_general (st : SessionState) (prompt : String)
    (agent : String → String → Except String String) : Option String × List Disp :=
  let group_id := st.qa_thread_id.orDefault "default-thread"
  match agent prompt group_id with
  | .ok r => (some r, [])
  | .error e => (none, [.error ("❌ QA lookup failed: " ++ e)])

/-- Lines 206-228: `render_general_section`.  When a last prompt is
stored, the agent is asked and the reply block always renders, falling
back to "⚠️ No response received." when the reply is falsy. -/
def render_general_section (st0 : SessionState) (pressed : Bool)
    (agent : String → String → Except String String) : SessionState × List Disp :=
  let st1 := { st0 with qa_thread_id := st0.qa_thread_id.setdefault
                      , qa_last_prompt := st0.qa_last_prompt.setdefault
                      , qa_last_reply := st0.qa_last_reply.setdefault }
  let st2 :=
    if st1.qa_prompt.truthy then { st1 with rule_input := .str "", rule_result := .str "" }
    else st1
  let d0 : List Disp := [.markdown "## 💬 Ask a Question About Rules or Scenarios"]
  let prompt := st2.qa_prompt.asStr
  let st3 := { st2 with qa_prompt := .str prompt }
  let st4 := if pressed then { st3 with qa_last_prompt := .str (pyStrip prompt) } else st3
  if st4.qa_last_prompt.truthy then
    let r := ask_general st4 (st4.qa_last_prompt.asStr) agent
    let st5 := { st4 with qa_last_reply := .str ((r.1).getD "") }
    (st5, d0 ++ r.2 ++
      [.markdown "### 🧠 Assistant Reply",
       .output (st5.qa_last_reply.orDefault "⚠️ No response received.")])
  else (st4, d0)

/-! ## Theorems -/

theorem findBlockText_eq (blocks : List ContentBlock) :
    findBlockText blocks = (blocks.findSome? ContentBlock.text).map pyStrip := by
  induction blocks with
  | nil => rfl
  | cons b rest ih =>
    cases h : b.text <;> simp [findBlockText, List.findSome?_cons, h, ih]

theorem extractOutput_eq_findSome? (output : List OutputItem) :
    extractOutput output = output.findSome? firstAvailableText := by
  induction output with
  | nil => rfl
  | cons o rest ih =>
    have hfa : firstAvailableText o =
        (match o.textValue with
         | some _t => (o.textValue).map pyStrip
         | none => findBlockText (o.content.getD [])) := by
      cases h : o.textValue <;> simp [firstAvailableText, findBlockText_eq, h]
    rw [List.findSome?_cons, hfa]
    cases htv : o.textValue with
    | some t => simp [extractOutput, htv]
    | none =>
      cases hc : o.content with
      | none => simp [extractOutput, htv, hc, ih, findBlockText]
      | some blocks =>
        cases hb : findBlockText blocks with
        | some s => simp [extractOutput, htv, hc, hb]
        | none => simp [extractOutput, htv, hc, hb, ih]

/-- C1: the text-extraction step of `ask_rule_lookup` returns the first
available text field across the documented response shapes — the direct
text-value field of an output item if present, otherwise the text field of
the first content block carrying one — and when no output item carries
either shape it returns the fixed fallback message. -/
theorem extraction_first_available_or_fallback (rule_id : String) (output : List OutputItem) :
    extractStep rule_id output =
      match output.findSome? firstAvailableText with
      | some s => s
      | none => noResponseMsg rule_id := by
  unfold extractStep
  rw [extractOutput_eq_findSome?]
  cases output.findSome? firstAvailableText <;> rfl

/-- C4: the `debug_mode` flag — a function of the `"query"` URL parameter
alone — is true exactly when that parameter (first element if the value is
a list) matches `"debug"` case-insensitively, and for no other input. -/
theorem debug_mode_iff_query_debug (qp : Option QPVal) :
    debug_mode qp = debugSpecFlag qp := by
  have hdl : pyLower "debug" = "debug" := by decide
  cases qp with
  | none => decide
  | some v =>
    cases v with
    | str s => simp [debug_mode, debugSpecFlag, qpNormalized, hdl]
    | list l =>
      cases l with
      | nil => decide
      | cons x t => simp [debug_mode, debugSpecFlag, qpNormalized, hdl]

/-- C5: noninterference of the debug flag — for every configuration, input
and API response, `ask_rule_lookup` returns the same value and sends the
same requests whether `debug_mode` is true or false; with the flag off no
diagnostic write and no cost line is displayed. -/
theorem debug_flag_noninterference (cfg : Config) (rule_id : String)
    (net : Request → Except String Response) :
    (ask_rule_lookup cfg true rule_id net).ret = (ask_rule_lookup cfg false rule_id net).ret ∧
    (ask_rule_lookup cfg true rule_id net).calls = (ask_rule_lookup cfg false rule_id net).calls ∧
    (∀ s, Disp.write s ∉ (ask_rule_lookup cfg false rule_id net).disp) ∧
    (∀ n, Disp.costLine n ∉ (ask_rule_lookup cfg false rule_id net).disp) := by
  cases h : net (buildRequest cfg rule_id) <;>
    simp [ask_rule_lookup, h]

/-- C6: every `ask_rule_lookup` invocation sends exactly one request to
the completion API, and that request carries the prompt identifier with
its version, the user's text wrapped in a single user message, and a
file-search tool configuration naming the two document-store
identifiers. -/
theorem lookup_single_call_and_request (dbg : Bool) (rule_id : String)
    (net : Request → Except String Response) :
    (ask_rule_lookup CONFIG dbg rule_id net).calls = [buildRequest CONFIG rule_id] ∧
    buildRequest CONFIG rule_id =
      { prompt_id := "pmpt_688eb6bb5d2c8195ae17efd5323009e0010626afbd178ad9"
      , prompt_version := RULE_VERSION
      , input := [{ role := "user", content := "id:" ++ rule_id }]
      , tools := [{ type := "file_search"
                  , vector_store_ids := ["vs_689558cb487c819196565f82ed51220f",
                                         "vs_689f72f117c8819195716f04bc2ae546"] }]
      , max_output_tokens := 2048
      , store := true } := by
  constructor
  · cases h : net (buildRequest CONFIG rule_id) <;> simp [ask_rule_lookup, h]
  · simp [buildRequest, CONFIG]
    decide

/-- C8: the vector-store list sent to the file-search tool keeps exactly
the configured values that are truthy strings with non-blank content; a
missing, non-string, empty or whitespace-only value is silently dropped,
never sent and never an error, so the request may carry fewer than two
store identifiers. -/
theorem vector_ids_filtered (a b : ConfigVal) (s : String) :
    (s ∈ filterVectorIds [a, b] ↔
      ((a = .str s ∨ b = .str s) ∧ s ≠ "" ∧ pyStrip s ≠ "")) ∧
    (filterVectorIds [a, b]).length ≤ 2 ∧
    filterVectorIds [.missing, .other true] = [] ∧
    (buildRequest { CONFIG with CASEBOOK_VECTOR_STORE_ID := .missing } "x").tools =
      [{ type := "file_search"
       , vector_store_ids := ["vs_689558cb487c819196565f82ed51220f"] }] := by
  refine ⟨?_, ?_, by decide, by decide⟩
  · simp only [filterVectorIds, List.filterMap, keepVector]
    cases a <;> cases b <;>
      simp [ConfigVal.pyTruthy, ConfigVal.isStr, ConfigVal.stripTruthy, ConfigVal.asStr] <;>
      split_ifs <;>
      simp_all <;>
      aesop
  · have : ∀ l : List ConfigVal, (filterVectorIds l).length ≤ l.length := by
      intro l
      induction l with
      | nil => simp [filterVectorIds]
      | cons x t ih =>
        cases h : keepVector x <;>
          simp [filterVectorIds, List.filterMap, h] at * <;>
          omega
    simpa using this [a, b]

theorem cached_lookup_self (cfg : Config) (dbg : Bool)
    (cache : List (String × Option String)) (key : String)
    (net : Request → Except String Response) :
    (cached_rule_lookup cfg dbg cache key net).cache.lookup key
      = some (cached_rule_lookup cfg dbg cache key net).ret := by
  unfold cached_rule_lookup
  cases h : cache.lookup key with
  | some v => simp [h]
  | none => simp [h, List.lookup_cons]

theorem cached_lookup_hit (cfg : Config) (dbg : Bool)
    (cache : List (String × Option String)) (key : String)
    (net : Request → Except String Response) (v : Option String)
    (h : cache.lookup key = some v) :
    cached_rule_lookup cfg dbg cache key net
      = { ret := v, cache := cache, calls := [], disp := [] } := by
  simp [cached_rule_lookup, h]

/-- C3: for a fixed input string, a second invocation of
`cached_rule_lookup` after a first one returns the same cached value as
the first, sends no request at all (no second network call), and leaves
the cache unchanged — whatever the debug flag or the network would do the
second time. -/
theorem memoized_second_lookup (cfg : Config) (dbg dbg' : Bool)
    (cache : List (String × Option String)) (key : String)
    (net net' : Request → Except String Response) :
    (cached_rule_lookup cfg dbg' (cached_rule_lookup cfg dbg cache key net).cache key net').ret
      = (cached_rule_lookup cfg dbg cache key net).ret ∧
    (cached_rule_lookup cfg dbg' (cached_rule_lookup cfg dbg cache key net).cache key net').calls
      = [] ∧
    (cached_rule_lookup cfg dbg' (cached_rule_lookup cfg dbg cache key net).cache key net').cache
      = (cached_rule_lookup cfg dbg cache key net).cache := by
  rw [cached_lookup_hit cfg dbg' (cached_rule_lookup cfg dbg cache key net).cache key net'
        (cached_rule_lookup cfg dbg cache key net).ret
        (cached_lookup_self cfg dbg cache key net)]
  exact ⟨rfl, rfl, rfl⟩

theorem lookup_none_not_mem_fst (c : List (String × Option String)) (k : String)
    (h : c.lookup k = none) : k ∉ c.map Prod.fst := by
  induction c with
  | nil => simp
  | cons p t ih =>
    obtain ⟨a, b⟩ := p
    rw [List.lookup_cons] at h
    cases hk : (k == a) with
    | true => simp [hk] at h
    | false =>
      simp only [hk] at h
      simp only [List.map_cons, List.mem_cons]
      rintro (rfl | hm)
      · simp at hk
      · exact ih h hm

theorem cached_lookup_nodup (cfg : Config) (dbg : Bool)
    (net : Request → Except String Response)
    (c : List (String × Option String)) (k : String)
    (h : (c.map Prod.fst).Nodup) :
    ((cached_rule_lookup cfg dbg c k net).cache.map Prod.fst).Nodup := by
  unfold cached_rule_lookup
  cases hl : c.lookup k with
  | some v => simpa [hl]
  | none =>
    simp only [hl, List.map_cons, List.nodup_cons]
    exact ⟨lookup_none_not_mem_fst c k hl, h⟩

/-- C7: starting from the empty cache, every sequence of memoized lookups
leaves a cache whose keys are pairwise distinct — each query string maps
to at most one cached response. -/
theorem cache_key_at_most_one (cfg : Config) (dbg : Bool)
    (net : Request → Except String Response) (ops : List String) :
    ((runLookups cfg dbg net ops []).map Prod.fst).Nodup := by
  have main : ∀ (ops : List String) (c : List (String × Option String)),
      (c.map Prod.fst).Nodup → ((runLookups cfg dbg net ops c).map Prod.fst).Nodup := by
    intro ops
    induction ops with
    | nil => intro c h; simpa [runLookups]
    | cons k ks ih =>
      intro c h
      rw [runLookups]
      exact ih _ (cached_lookup_nodup cfg dbg net c k h)
  exact main ops [] (by simp)

/-- C9: pressing Look Up with an empty or whitespace-only input performs
no lookup — no request is sent, the cache is untouched — leaves the stored
rule result unchanged, and shows a warning instead. -/
theorem blank_input_no_lookup (cfg : Config) (dbg : Bool) (st0 : SessionState)
    (cache : List (String × Option String)) (net : Request → Except String Response)
    (h : pyStrip st0.rule_input.asStr = "") :
    (render_rule_section cfg dbg st0 true cache net).calls = [] ∧
    (render_rule_section cfg dbg st0 true cache net).cache = cache ∧
    (render_rule_section cfg dbg st0 true cache net).state.rule_result = st0.rule_result ∧
    Disp.warning "Please enter a rule ID to look up or enter a question or scenario."
      ∈ (render_rule_section cfg dbg st0 true cache net).disp := by
  by_cases ht : st0.rule_input.truthy <;>
    simp [render_rule_section, ht, h]

/-- C9 applied at a concrete whitespace-only input. -/
theorem blank_input_no_lookup_witness :
    pyStrip (SessionState.mk (.str "  ") (.str "kept") .missing .missing .missing .missing).rule_input.asStr = "" ∧
    ((render_rule_section CONFIG false
        (SessionState.mk (.str "  ") (.str "kept") .missing .missing .missing .missing) true []
        (fun _ => Except.error "boom")).calls = [] ∧
     (render_rule_section CONFIG false
        (SessionState.mk (.str "  ") (.str "kept") .missing .missing .missing .missing) true []
        (fun _ => Except.error "boom")).cache = [] ∧
     (render_rule_section CONFIG false
        (SessionState.mk (.str "  ") (.str "kept") .missing .missing .missing .missing) true []
        (fun _ => Except.error "boom")).state.rule_result
       = (SessionState.mk (.str "  ") (.str "kept") .missing .missing .missing .missing).rule_result ∧
     Disp.warning "Please enter a rule ID to look up or enter a question or scenario."
       ∈ (render_rule_section CONFIG false
            (SessionState.mk (.str "  ") (.str "kept") .missing .missing .missing .missing) true []
            (fun _ => Except.error "boom")).disp) :=
  ⟨by decide,
   blank_input_no_lookup CONFIG false
     (SessionState.mk (.str "  ") (.str "kept") .missing .missing .missing .missing)
     [] (fun _ => Except.error "boom") (by decide)⟩

/-- C2 counterexample: at a concrete failed lookup (network raises
"boom"), the error message is displayed and `None` is stored, but the
rule section's downstream rendering shows NO fallback "no response"
message — the truthiness guard at line 201 skips the result block, so the
claim's final clause fails on the active rule-lookup path. -/
theorem failed_lookup_no_fallback_counterexample :
    (render_rule_section CONFIG false
        (SessionState.mk (.str "8-1") .missing .missing .missing .missing .missing) true []
        (fun _ => Except.error "boom")).state.rule_result = .pynone ∧
    (render_rule_section CONFIG false
        (SessionState.mk (.str "8-1") .missing .missing .missing .missing .missing) true []
        (fun _ => Except.error "boom")).disp =
      [.markdown "### 🔍 Search by Rule ID (e.g., 8-5-3d) or type a question/scenario",
       .error "❌ Rule lookup failed: boom"] ∧
    Disp.output "⚠️ No response." ∉
      (render_rule_section CONFIG false
        (SessionState.mk (.str "8-1") .missing .missing .missing .missing .missing) true []
        (fun _ => Except.error "boom")).disp := by
  refine ⟨by decide, by decide, by decide⟩

theorem render_rule_section_error (cfg : Config) (dbg : Bool) (st0 : SessionState)
    (cache : List (String × Option String)) (e : String)
    (hin : pyStrip st0.rule_input.asStr ≠ "")
    (hmiss : cache.lookup (pyStrip st0.rule_input.asStr) = none) :
    (render_rule_section cfg dbg st0 true cache (fun _ => Except.error e)).state.rule_result
      = .pynone ∧
    (render_rule_section cfg dbg st0 true cache (fun _ => Except.error e)).disp =
      [.markdown "### 🔍 Search by Rule ID (e.g., 8-5-3d) or type a question/scenario",
       .error ("❌ Rule lookup failed: " ++ e)] := by
  obtain ⟨ri, rr, qt, qlp, qlr, qp⟩ := st0
  cases ri with
  | missing => exact absurd (by simp only [SVal.asStr]; decide) hin
  | pynone => exact absurd (by simp only [SVal.asStr]; decide) hin
  | str s =>
    have hs : s ≠ "" := by
      intro h
      subst h
      exact hin (by simp only [SVal.asStr]; decide)
    have hmiss' : cache.lookup (pyStrip s) = none := by
      simpa [SVal.asStr] using hmiss
    have hbne : (pyStrip s != "") = true := by
      simpa [SVal.asStr] using hin
    have hsne : (s != "") = true := by simpa using hs
    constructor <;>
      simp [render_rule_section, SVal.asStr, SVal.truthy, hsne, hbne, hmiss',
            cached_rule_lookup, ask_rule_lookup]

theorem render_general_section_error (st0 : SessionState) (e : String)
    (hq : pyStrip st0.qa_prompt.asStr ≠ "") :
    Disp.output "⚠️ No response received."
      ∈ (render_general_section st0 true (fun _ _ => Except.error e)).2 := by
  obtain ⟨ri, rr, qt, qlp, qlr, qp⟩ := st0
  cases qp with
  | missing => exact absurd (by simp only [SVal.asStr]; decide) hq
  | pynone => exact absurd (by simp only [SVal.asStr]; decide) hq
  | str s =>
    have hs : s ≠ "" := by
      intro h
      subst h
      exact hq (by simp only [SVal.asStr]; decide)
    have hbne : (pyStrip s != "") = true := by
      simpa [SVal.asStr] using hq
    have hsne : (s != "") = true := by simpa using hs
    simp [render_general_section, SVal.asStr, SVal.truthy, hsne, hbne,
          ask_general, SVal.orDefault, SVal.setdefault]

/-- C2 amended: every exception raised by the network call is caught by
`ask_rule_lookup` (likewise by `ask_general` for the agent call), a
visible error message carrying the exception text is displayed, and `None`
is returned — never an unhandled crash.  Downstream, the rule section then
skips the result block entirely (the falsy `None` result renders nothing,
so no fallback "no response" output appears there), while the general
section's rendering shows the fallback "⚠️ No response received."
message. -/
theorem exception_caught_behavior (cfg : Config) (dbg : Bool) (rule_id e : String)
    (st0 : SessionState) (cache : List (String × Option String))
    (hin : pyStrip st0.rule_input.asStr ≠ "")
    (hmiss : cache.lookup (pyStrip st0.rule_input.asStr) = none)
    (hq : pyStrip st0.qa_prompt.asStr ≠ "") :
    ask_rule_lookup cfg dbg rule_id (fun _ => Except.error e)
      = { ret := none, calls := [buildRequest cfg rule_id]
        , disp := [.error ("❌ Rule lookup failed: " ++ e)] } ∧
    ask_general st0 (pyStrip st0.qa_prompt.asStr) (fun _ _ => Except.error e)
      = (none, [.error ("❌ QA lookup failed: " ++ e)]) ∧
    (render_rule_section cfg dbg st0 true cache (fun _ => Except.error e)).state.rule_result
      = .pynone ∧
    Disp.error ("❌ Rule lookup failed: " ++ e)
      ∈ (render_rule_section cfg dbg st0 true cache (fun _ => Except.error e)).disp ∧
    (∀ s, Disp.output s ∉
      (render_rule_section cfg dbg st0 true cache (fun _ => Except.error e)).disp) ∧
    Disp.output "⚠️ No response received."
      ∈ (render_general_section st0 true (fun _ _ => Except.error e)).2 := by
  obtain ⟨hrr, hdisp⟩ := render_rule_section_error cfg dbg st0 cache e hin hmiss
  refine ⟨by simp [ask_rule_lookup], by simp [ask_general], hrr, ?_, ?_, ?_⟩
  · rw [hdisp]; simp
  · intro s; rw [hdisp]; simp
  · exact render_general_section_error st0 e hq

/-- C2 amended, applied at a concrete failing network call. -/
theorem exception_caught_behavior_witness :
    (pyStrip (SessionState.mk (.str "8-1") .missing .missing .missing .missing
        (.str "q")).rule_input.asStr ≠ "") ∧
    ask_rule_lookup CONFIG false "8-1" (fun _ => Except.error "boom")
      = { ret := none, calls := [buildRequest CONFIG "8-1"]
        , disp := [.error ("❌ Rule lookup failed: " ++ "boom")] } ∧
    Disp.output "⚠️ No response received."
      ∈ (render_general_section
          (SessionState.mk (.str "8-1") .missing .missing .missing .missing (.str "q")) true
          (fun _ _ => Except.error "boom")).2 :=
  ⟨by decide,
   (exception_caught_behavior CONFIG false "8-1" "boom"
      (SessionState.mk (.str "8-1") .missing .missing .missing .missing (.str "q"))
      [] (by decide) (by decide) (by decide)).1,
   (exception_caught_behavior CONFIG false "8-1" "boom"
      (SessionState.mk (.str "8-1") .missing .missing .missing .missing (.str "q"))
      [] (by decide) (by decide) (by decide)).2.2.2.2.2⟩

theorem head?_dropWhile_false (p : Char → Bool) (l : List Char) (c : Char)
    (h : (l.dropWhile p).head? = some c) : p c = false := by
  induction l with
  | nil => simp [List.dropWhile] at h
  | cons a t ih =>
    rw [List.dropWhile_cons] at h
    by_cases hp : p a
    · rw [if_pos hp] at h
      exact ih h
    · rw [if_neg hp] at h
      simp only [List.head?_cons, Option.some.injEq] at h
      subst h
      simpa using hp

theorem dropWhile_eq_self_of_clean (p : Char → Bool) (l : List Char)
    (h : ∀ c, l.head? = some c → p c = false) : l.dropWhile p = l := by
  cases l with
  | nil => rfl
  | cons a t =>
    have ha := h a rfl
    rw [List.dropWhile_cons, if_neg (by simp [ha])]

theorem dropWhile_suffix_exists (p : Char → Bool) (l : List Char) :
    ∃ t, t ++ l.dropWhile p = l := by
  induction l with
  | nil => exact ⟨[], rfl⟩
  | cons a t ih =>
    by_cases hp : p a
    · obtain ⟨u, hu⟩ := ih
      refine ⟨a :: u, ?_⟩
      rw [List.dropWhile_cons, if_pos hp]
      simpa using hu
    · exact ⟨[], by simp [List.dropWhile_cons, hp]⟩

theorem stripL_head?_false (l : List Char) (c : Char)
    (h : (stripL l).head? = some c) : pyWs c = false := by
  obtain ⟨t, ht⟩ := dropWhile_suffix_exists pyWs (l.dropWhile pyWs).reverse
  have h2 : ((l.dropWhile pyWs).reverse.dropWhile pyWs).reverse ++ t.reverse
      = l.dropWhile pyWs := by
    have h3 := congrArg List.reverse ht
    rw [List.reverse_append, List.reverse_reverse] at h3
    exact h3
  have h4 : (l.dropWhile pyWs).head? = some c := by
    rw [← h2, List.head?_append]
    unfold stripL at h
    rw [h]
    rfl
  exact head?_dropWhile_false pyWs l c h4

theorem stripL_reverse_head?_false (l : List Char) (c : Char)
    (h : (stripL l).reverse.head? = some c) : pyWs c = false := by
  unfold stripL at h
  rw [List.reverse_reverse] at h
  exact head?_dropWhile_false pyWs _ c h

theorem stripL_idem (l : List Char) : stripL (stripL l) = stripL l := by
  have h1 : (stripL l).dropWhile pyWs = stripL l :=
    dropWhile_eq_self_of_clean pyWs _ (fun c hc => stripL_head?_false l c hc)
  have h2 : (stripL l).reverse.dropWhile pyWs = (stripL l).reverse :=
    dropWhile_eq_self_of_clean pyWs _ (fun c hc => stripL_reverse_head?_false l c hc)
  show (((stripL l).dropWhile pyWs).reverse.dropWhile pyWs).reverse = stripL l
  rw [h1, h2, List.reverse_reverse]

theorem findBlockText_is_stripped (blocks : List ContentBlock) (s : String)
    (h : findBlockText blocks = some s) : ∃ t, s = pyStrip t := by
  induction blocks with
  | nil => simp [findBlockText] at h
  | cons b rest ih =>
    cases hb : b.text with
    | some t =>
      simp [findBlockText, hb] at h
      exact ⟨t, h.symm⟩
    | none =>
      simp [findBlockText, hb] at h
      exact ih h

theorem extractOutput_is_stripped (output : List OutputItem) (s : String)
    (h : extractOutput output = some s) : ∃ t, s = pyStrip t := by
  induction output with
  | nil => simp [extractOutput] at h
  | cons o rest ih =>
    cases htv : o.textValue with
    | some t =>
      simp [extractOutput, htv] at h
      exact ⟨t, h.symm⟩
    | none =>
      cases hc : o.content with
      | none =>
        simp [extractOutput, htv, hc] at h
        exact ih h
      | some blocks =>
        cases hb : findBlockText blocks with
        | some u =>
          simp [extractOutput, htv, hc, hb] at h
          exact h ▸ findBlockText_is_stripped blocks u hb
        | none =>
          simp [extractOutput, htv, hc, hb] at h
          exact ih h

/-- C10: every string the extraction step obtains via either documented
response shape is returned with leading and trailing whitespace removed —
stripping it again changes nothing, and it neither begins nor ends with a
whitespace character. -/
theorem extracted_text_stripped (output : List OutputItem) (s : String)
    (h : extractOutput output = some s) :
    pyStrip s = s ∧
    (s.data.head?.all fun c => !(pyWs c)) = true ∧
    (s.data.reverse.head?.all fun c => !(pyWs c)) = true := by
  obtain ⟨t, rfl⟩ := extractOutput_is_stripped output s h
  refine ⟨?_, ?_, ?_⟩
  · simp [pyStrip, stripL_idem]
  · cases hh : (stripL t.data).head? with
    | none => simp [pyStrip, hh]
    | some c => simp [pyStrip, hh, Option.all, stripL_head?_false t.data c hh]
  · cases hh : (stripL t.data).reverse.head? with
    | none => simp [pyStrip, hh]
    | some c => simp [pyStrip, hh, Option.all, stripL_reverse_head?_false t.data c hh]

/-- C10 applied at a concrete response carrying a padded text value. -/
theorem extracted_text_stripped_witness :
    extractOutput [OutputItem.mk (some " hi ") none] = some "hi" ∧
    pyStrip "hi" = "hi" :=
  ⟨by decide,
   (extracted_text_stripped [OutputItem.mk (some " hi ") none] "hi" (by decide)).1⟩

/-- C5 applied at a concrete configuration, input and response. -/
theorem debug_flag_noninterference_witness :
    (ask_rule_lookup CONFIG true "8-5-3d" (fun _ => Except.ok ⟨[], none⟩)).ret
      = (ask_rule_lookup CONFIG false "8-5-3d" (fun _ => Except.ok ⟨[], none⟩)).ret ∧
    (ask_rule_lookup CONFIG true "8-5-3d" (fun _ => Except.ok ⟨[], none⟩)).calls
      = (ask_rule_lookup CONFIG false "8-5-3d" (fun _ => Except.ok ⟨[], none⟩)).calls :=
  ⟨(debug_flag_noninterference CONFIG "8-5-3d" (fun _ => Except.ok ⟨[], none⟩)).1,
   (debug_flag_noninterference CONFIG "8-5-3d" (fun _ => Except.ok ⟨[], none⟩)).2.1⟩

/-- C7 applied at a concrete sequence of lookups with a repeated key. -/
theorem cache_key_at_most_one_witness :
    ((runLookups CONFIG false (fun _ => Except.error "down") ["8-1", "9-2", "8-1"] []).map
        Prod.fst).Nodup :=
  cache_key_at_most_one CONFIG false (fun _ => Except.error "down") ["8-1", "9-2", "8-1"]

/-- C8 applied at concrete configured values. -/
theorem vector_ids_filtered_witness :
    filterVectorIds [ConfigVal.missing, ConfigVal.other true] = [] ∧
    (buildRequest { CONFIG with CASEBOOK_VECTOR_STORE_ID := .missing } "x").tools =
      [{ type := "file_search"
       , vector_store_ids := ["vs_689558cb487c819196565f82ed51220f"] }] :=
  ⟨(vector_ids_filtered (.str "a") .missing "a").2.2.1,
   (vector_ids_filtered (.str "a") .missing "a").2.2.2⟩

end NFHS
